import Mathlib

/-!
Verification of the stealth market-maker core (`src/market_maker.rs`).

The Rust code is shallowly embedded: `f64` quantities are modelled as `ℚ`
(all constants in the source are decimal literals, and the operations the
claims are about — addition, subtraction, multiplication, `min`/`max`,
comparisons and `as u64` truncation — are modelled exactly on the rational
semantics), `u32`/`u64`/`usize` counters as `ℕ`, `VecDeque` front-to-back
as a `List` whose head is the oldest element, and the external
collaborators (wallet pool, signal managers, RPC, RNG draws) as explicit
function or value parameters, matching the spec's "narrow interfaces".
-/

namespace MarketMaker

/-- Trade tags kept in the recent-trades window (`wallet_pool::TradeType`). -/
inductive TradeType
  | buy
  | sell
deriving DecidableEq, Repr

/-- Structure `TokenActivity` (market_maker.rs:42): one record of the activity window.
`Instant` timestamps are modelled as seconds (`ℕ`). -/
structure TokenActivity where
  timestamp : ℕ
  is_buy : Bool
  volume_sol : ℚ
  user : String
  price : ℚ
deriving DecidableEq, Repr

/- ----------------------------------------------------------------
   Guardian-biased buy ratio (start_advanced_trading_engine, lines 287-302):
     let mut current_buy_ratio = dynamic_ratio_manager.get_current_buy_ratio();
     let guardian_buy_bias = guardian_mode.get_buy_bias();
     if guardian_buy_bias > 0.0 {
         current_buy_ratio = (current_buy_ratio + guardian_buy_bias).min(0.95);
     }
   ---------------------------------------------------------------- -/

/-- The buy ratio after applying the guardian-mode bias, exactly as in
`start_advanced_trading_engine` lines 293-294. -/
def applyGuardianBias (base bias : ℚ) : ℚ :=
  if bias > 0 then min (base + bias) (95/100) else base

/- ----------------------------------------------------------------
   Balance thresholds and Step 3 of execute_advanced_buy_debug
   (lines 506-577).
   ---------------------------------------------------------------- -/

/-- Constant `minimal_balance_for_fee = 0.005` (line 508). -/
def minimal_balance_for_fee : ℚ := 5/1000

/-- Constant `minimal_wsol_balance_for_trading = 0.001` (line 509). -/
def minimal_wsol_balance_for_trading : ℚ := 1/1000

/-- Constant `critical_sol_threshold = 0.003` (line 510). -/
def critical_sol_threshold : ℚ := 3/1000

/-- Constant `rent_exemption_bonus = 0.00204` (line 522). -/
def rent_exemption_bonus : ℚ := 204/100000

/-- Constant `reserve_for_fees = 0.0005` (line 550). -/
def reserve_for_fees : ℚ := 5/10000

/-- The three balance regimes of Step 3 of `execute_advanced_buy_debug`. -/
inductive BalanceRegime
  | sufficient
  | feeStarved
  | wrapNeeded
deriving DecidableEq, Repr

/-- The regime branch taken by Step 3 (lines 515-548): the chain of
conditions on the native SOL balance and the wrapped WSOL balance. -/
def selectBalanceRegime (native wrapped : ℚ) : BalanceRegime :=
  if native > critical_sol_threshold ∧ wrapped > minimal_wsol_balance_for_trading then
    .sufficient
  else if native ≤ critical_sol_threshold ∧ wrapped > minimal_wsol_balance_for_trading then
    .feeStarved
  else
    .wrapNeeded

/-- Computation `unwrap_amount = (needed_sol - rent_exemption_bonus).max(0.0001)` where
`needed_sol = minimal_balance_for_fee - current_balance_f64` (lines 521-523). -/
def unwrapAmount (native : ℚ) : ℚ :=
  let needed_sol := minimal_balance_for_fee - native
  max (needed_sol - rent_exemption_bonus) (1/10000)

/-- Outcome of Step 3 (balance management) before any on-chain operation
is attempted. -/
inductive BalanceAction
  | noAction
  | unwrapAction (amount : ℚ)
  | wrapAction (amount : ℚ)
  | insufficientWsolError (need got : ℚ)
  | insufficientSolError (current reserved : ℚ)
deriving DecidableEq, Repr

/-- Step 3 of `execute_advanced_buy_debug` (lines 515-577): which action is
chosen, including the insufficient-funds early errors that are returned
before any transaction is built. -/
def balanceStep (native wrapped : ℚ) : BalanceAction :=
  match selectBalanceRegime native wrapped with
  | .sufficient => .noAction
  | .feeStarved =>
      let amount := unwrapAmount native
      if wrapped ≥ amount then .unwrapAction amount
      else .insufficientWsolError amount wrapped
  | .wrapNeeded =>
      let available_sol := native - reserve_for_fees
      if available_sol ≤ 0 then .insufficientSolError native reserve_for_fees
      else .wrapAction (available_sol * (75/100))

/- ----------------------------------------------------------------
   Bounded FIFO windows: recent_trades (cap 20, lines 653-659 / 906-912)
   and token_activities (cap 100, lines 1622-1629):
     w.push_back(x); if w.len() > cap { w.pop_front(); }
   The list head is the front (oldest) element.
   ---------------------------------------------------------------- -/

/-- Operation `push_back` followed by the over-capacity `pop_front`. -/
def pushBounded (cap : ℕ) (w : List α) (x : α) : List α :=
  let w2 := w ++ [x]
  if w2.length > cap then w2.tail else w2

/-- The trade-history update after a completed trade (lines 653-659). -/
def pushTradeHistory (w : List TradeType) (t : TradeType) : List TradeType :=
  pushBounded 20 w t

/- ----------------------------------------------------------------
   Next-interval computation (start_advanced_trading_engine, lines 330-370):
     let raw_interval = wallet_pool.generate_random_interval(base_interval);
     let throttled_interval = (raw_interval as f64 * throttling_multiplier) as u64;
     let wave_interval = volume_wave_manager.get_natural_interval(throttled_interval);
     let final_interval = (wave_interval as f64 * guardian_multiplier) as u64;
   The multipliers are non-negative in the source, so `as u64` is floor.
   The wave manager's transform is an external collaborator taking a u64,
   modelled as an arbitrary function `wave : ℕ → ℕ`.
   ---------------------------------------------------------------- -/

/-- Conversion `as u64` on a non-negative f64 value: truncation toward zero,
i.e. the floor, clamped to zero from below. -/
def floorToNat (q : ℚ) : ℕ :=
  ⌊q⌋.toNat

/-- Value `throttled_interval` (line 347): the jittered base interval times the
throttle multiplier, truncated to integer milliseconds. -/
def throttled_interval (raw : ℕ) (throttling_multiplier : ℚ) : ℕ :=
  floorToNat ((raw : ℚ) * throttling_multiplier)

/-- Value `final_interval` (lines 343-355): the full staged computation — throttle
multiplier, truncation, wave-shaper transform on the integer result, guardian
frequency multiplier, truncation. -/
def final_interval (raw : ℕ) (throttling_multiplier : ℚ)
    (wave : ℕ → ℕ) (guardian_multiplier : ℚ) : ℕ :=
  let throttled := floorToNat ((raw : ℚ) * throttling_multiplier)
  let wave_interval := wave throttled
  floorToNat ((wave_interval : ℚ) * guardian_multiplier)

/-- Modelled from the spec: the single-truncation interval the spec describes
("truncate to integer milliseconds only once, at the end"), with the wave
transform acting on the untruncated rational value. Used only to compare with
`final_interval`, the embedding of the source. -/
def truncateOnceInterval (raw : ℕ) (throttling_multiplier : ℚ)
    (waveQ : ℚ → ℚ) (guardian_multiplier : ℚ) : ℕ :=
  floorToNat (waveQ ((raw : ℚ) * throttling_multiplier) * guardian_multiplier)

/- ----------------------------------------------------------------
   Subscription retry loop (start_grpc_monitoring, lines 948-965):
     let mut retry_count = 0;
     const MAX_RETRIES: u32 = 3;
     loop {
         match client.subscribe().await {
             Ok(pair) => break pair,
             Err(e) => {
                 retry_count += 1;
                 if retry_count >= MAX_RETRIES { return Err(...); }
                 log; sleep(5 seconds);
             }
         }
     }
   The external subscribe call is modelled by `ok : ℕ → Bool` giving the
   outcome of each attempt (0-indexed).  The recursion is structural on
   `remaining = MAX_RETRIES - retry_count` (initially `MAX_RETRIES`): the
   loop exits with an error exactly when `retry_count + 1 ≥ MAX_RETRIES`,
   i.e. when `remaining ≤ 1` at a failing attempt.  `backoffs` records the
   duration in milliseconds of each sleep performed, in order.
   ---------------------------------------------------------------- -/

/-- Constant `MAX_RETRIES = 3` (line 949). -/
def MAX_RETRIES : ℕ := 3

/-- Outcome of the subscription loop: how many subscribe attempts were made
and which backoff sleeps (ms) were performed before it resolved. -/
inductive SubscribeOutcome
  | success (attempts : ℕ) (backoffs : List ℕ)
  | failure (attempts : ℕ) (backoffs : List ℕ)
deriving DecidableEq, Repr

/-- The retry loop body, structurally recursive on the remaining retry
budget (`MAX_RETRIES - retry_count`). -/
def subscribeAttemptLoop (ok : ℕ → Bool) :
    (remaining : ℕ) → (attempt : ℕ) → (backoffs : List ℕ) → SubscribeOutcome
  | 0, attempt, backoffs => .failure attempt backoffs
  | remaining + 1, attempt, backoffs =>
      if ok attempt then .success (attempt + 1) backoffs
      else if remaining = 0 then .failure (attempt + 1) backoffs
      else subscribeAttemptLoop ok remaining (attempt + 1) (backoffs ++ [5000])

/-- The whole subscription phase of `start_grpc_monitoring`:
`retry_count` starts at 0, so the remaining budget starts at `MAX_RETRIES`. -/
def start_grpc_subscribe (ok : ℕ → Bool) : SubscribeOutcome :=
  subscribeAttemptLoop ok MAX_RETRIES 0 []

/- ----------------------------------------------------------------
   Activity report (generate_activity_report, lines 1502-1554) and the
   guarded ratios of log_activity_report (lines 1576-1619).
   ---------------------------------------------------------------- -/

/-- Structure `TokenActivityReport` (market_maker.rs:52). -/
structure TokenActivityReport where
  total_trades : ℕ
  buy_trades : ℕ
  sell_trades : ℕ
  total_volume_sol : ℚ
  buy_volume_sol : ℚ
  sell_volume_sol : ℚ
  average_price : ℚ
  min_price : ℚ
  max_price : ℚ
  unique_traders : ℕ
  report_period_minutes : ℕ
deriving DecidableEq, Repr

/-- Value of `TokenActivityReport::default()`: every field zero. -/
def TokenActivityReport.zero : TokenActivityReport :=
  ⟨0, 0, 0, 0, 0, 0, 0, 0, 0, 0, 0⟩

/-- The `fold(INFINITY, min)` over prices of lines 1532-1533 together with
the `if min_price == INFINITY then 0` post-pass of line 1549: the sentinel
"still infinity" is modelled as `none`. -/
def foldMinPrice (prices : List ℚ) : ℚ :=
  match prices.foldl (fun acc b =>
      some (match acc with | none => b | some a => min a b)) none with
  | none => 0
  | some v => v

/-- The `fold(NEG_INFINITY, max)` of line 1533 with the post-pass of
line 1550. -/
def foldMaxPrice (prices : List ℚ) : ℚ :=
  match prices.foldl (fun acc b =>
      some (match acc with | none => b | some a => max a b)) none with
  | none => 0
  | some v => v

/-- Function `generate_activity_report` (lines 1502-1554).  `now` is the current
time in seconds; `duration_since` saturates at 0 for future timestamps,
exactly as truncated `ℕ` subtraction does. -/
def generate_activity_report (activities : List TokenActivity) (now : ℕ) :
    TokenActivityReport :=
  let recent := activities.filter (fun a => now - a.timestamp ≤ 3600)
  if recent.isEmpty then
    { TokenActivityReport.zero with report_period_minutes := 60 }
  else
    let total_trades := recent.length
    let buy_trades := (recent.filter (fun a => a.is_buy)).length
    let sell_trades := total_trades - buy_trades
    let total_volume_sol := (recent.map (fun a => a.volume_sol)).sum
    let buy_volume_sol := ((recent.filter (fun a => a.is_buy)).map (fun a => a.volume_sol)).sum
    let sell_volume_sol := total_volume_sol - buy_volume_sol
    let prices := recent.map (fun a => a.price)
    let average_price := prices.sum / (prices.length : ℚ)
    let unique_traders := (recent.map (fun a => a.user)).dedup.length
    { total_trades := total_trades
      buy_trades := buy_trades
      sell_trades := sell_trades
      total_volume_sol := total_volume_sol
      buy_volume_sol := buy_volume_sol
      sell_volume_sol := sell_volume_sol
      average_price := average_price
      min_price := foldMinPrice prices
      max_price := foldMaxPrice prices
      unique_traders := unique_traders
      report_period_minutes := 60 }

/-- Buy-trade percentage as logged (lines 1583-1586): defaults to 0 when
`total_trades = 0`. -/
def buyTradePct (r : TokenActivityReport) : ℚ :=
  if r.total_trades > 0 then (r.buy_trades : ℚ) / (r.total_trades : ℚ) * 100 else 0

/-- Sell-trade percentage as logged (lines 1587-1590). -/
def sellTradePct (r : TokenActivityReport) : ℚ :=
  if r.total_trades > 0 then (r.sell_trades : ℚ) / (r.total_trades : ℚ) * 100 else 0

/-- Buy-volume percentage as logged (lines 1594-1597). -/
def buyVolumePct (r : TokenActivityReport) : ℚ :=
  if r.total_volume_sol > 0 then r.buy_volume_sol / r.total_volume_sol * 100 else 0

/-- Sell-volume percentage as logged (lines 1598-1601). -/
def sellVolumePct (r : TokenActivityReport) : ℚ :=
  if r.total_volume_sol > 0 then r.sell_volume_sol / r.total_volume_sol * 100 else 0

/-- Price-range percentage as logged (lines 1607-1610). -/
def priceRangePct (r : TokenActivityReport) : ℚ :=
  if r.min_price > 0 then (r.max_price - r.min_price) / r.min_price * 100 else 0

/-- Average trades per trader as logged (lines 1614-1616). -/
def avgTradesPerTrader (r : TokenActivityReport) : ℚ :=
  if r.unique_traders > 0 then (r.total_trades : ℚ) / (r.unique_traders : ℚ) else 0

/- ----------------------------------------------------------------
   GRPC feed path (process_grpc_message lines 1383-1408, add_token_activity
   lines 1622-1639).  The price monitor's and guardian mode's internal
   updates (`add_price_point`) are external collaborators; the feed state
   records the (price, volume) pairs forwarded to each of them, which is
   all the frame claim needs.
   ---------------------------------------------------------------- -/

/-- The fields of `TradeInfoFromToken` that `process_grpc_message` reads. -/
structure TradeInfoFromToken where
  is_buy : Bool
  volume_change : ℚ
  user : String
deriving DecidableEq, Repr

/-- State shared by the feed path: the activity window plus the streams of
price points forwarded to the two price-consuming signal sources. -/
structure FeedState where
  activities : List TokenActivity
  price_monitor_points : List (ℚ × ℚ)
  guardian_points : List (ℚ × ℚ)
deriving DecidableEq, Repr

/-- Function `add_token_activity` (lines 1622-1639): push into the capacity-100
window, then forward `(price, volume)` to the price monitor and guardian
mode only when `price > 0.0`. -/
def add_token_activity (s : FeedState) (activity : TokenActivity) : FeedState :=
  let activities := pushBounded 100 s.activities activity
  if activity.price > 0 then
    { activities := activities
      price_monitor_points := s.price_monitor_points ++ [(activity.price, activity.volume_sol)]
      guardian_points := s.guardian_points ++ [(activity.price, activity.volume_sol)] }
  else
    { s with activities := activities }

/-- The `TokenActivity` record built by `process_grpc_message`
(lines 1396-1402): the price field is the literal `0.0`. -/
def mkActivityFromGrpc (now : ℕ) (t : TradeInfoFromToken) : TokenActivity :=
  { timestamp := now
    is_buy := t.is_buy
    volume_sol := t.volume_change
    user := t.user
    price := 0 }

/-- Function `process_grpc_message` (lines 1383-1408): the external parser's result
is `parsed` (`none` for a non-match or a non-transaction update, which is
silently skipped). -/
def process_grpc_message (s : FeedState) (parsed : Option TradeInfoFromToken)
    (now : ℕ) : FeedState :=
  match parsed with
  | none => s
  | some t => add_token_activity s (mkActivityFromGrpc now t)

/- ----------------------------------------------------------------
   Control-loop cycle (start_advanced_trading_engine, lines 276-390).
   One cycle: decide buy/sell, maybe rotate the wallet, execute the trade
   (execute_advanced_buy_debug / execute_advanced_sell), compute the next
   interval.  External collaborators and random draws are the explicit
   `CycleInputs`.
   ---------------------------------------------------------------- -/

/-- The fields of `wallet_pool::RandomizationConfig` that the core reads. -/
structure RandomizationConfig where
  min_amount_sol : ℚ
  max_amount_sol : ℚ
  buy_sell_share : ℚ
  wallet_rotation_frequency : ℕ
  base_buy_interval_ms : ℕ
  base_sell_interval_ms : ℕ
deriving DecidableEq, Repr

/-- Structure `MarketMakerConfig` (market_maker.rs:68).  Field `app_state` (RPC handles) is
an external collaborator and carries no decision-relevant data. -/
structure MarketMakerConfig where
  yellowstone_grpc_http : String
  yellowstone_grpc_token : String
  target_token_mint : String
  slippage : ℕ
  randomization_config : RandomizationConfig
  enable_multi_wallet : Bool
  max_concurrent_trades : ℕ
  enable_telegram_notifications : Bool
deriving DecidableEq, Repr

/-- Enum `engine::swap::SwapDirection`. -/
inductive SwapDirection
  | buyDir
  | sellDir
deriving DecidableEq, Repr

/-- Enum `engine::swap::SwapInType` (absolute quantity vs. percentage). -/
inductive SwapInType
  | qty
  | pct
deriving DecidableEq, Repr

/-- Structure `SwapConfig` as constructed at lines 607-614 and 877-884. -/
structure SwapConfig where
  mint : String
  swap_direction : SwapDirection
  in_type : SwapInType
  amount_in : ℚ
  slippage : ℕ
  max_buy_amount : ℚ
deriving DecidableEq, Repr

/-- The mutable state owned by the control loop: the trade-history window,
the monotone trade counter, the trades-since-rotation counter and the
active wallet (wallets identified by `ℕ`). -/
structure EngineState where
  recent_trades : List TradeType
  trade_counter : ℕ
  wallet_change_counter : ℕ
  current_wallet : ℕ
deriving DecidableEq, Repr

/-- External inputs and random draws consumed by one cycle. -/
structure CycleInputs where
  /-- Result of `dynamic_ratio_manager.get_current_buy_ratio()` (line 288). -/
  dynamic_buy_share : ℚ
  /-- Result of `guardian_mode.get_buy_bias()` (line 292). -/
  guardian_buy_bias : ℚ
  /-- Function `wallet_pool.should_buy_next` (line 302), the external
  streak-avoidance function. -/
  should_buy_next : List TradeType → ℚ → Bool
  /-- Result of `wallet_pool.get_random_wallet()` as drawn by `rotate_wallet`. -/
  new_wallet : ℕ
  /-- Draw `rng.gen::<f64>()` at line 600, in `[0, 1)`. -/
  amount_draw : ℚ
  /-- Draw `rand::random::<f64>()` at line 323, in `[0, 1)`. -/
  sell_draw : ℚ
  /-- Whether the on-chain submission of this cycle's trade succeeds. -/
  trade_succeeds : Bool
  /-- WSOL balance read after Step 3's balance management (lines 583-591). -/
  wsol_after_management : ℚ
  /-- Function `wallet_pool.generate_random_interval` (line 343). -/
  raw_interval : ℕ → ℕ
  /-- Result of `price_monitor.get_throttling_multiplier()` (line 346). -/
  throttling_multiplier : ℚ
  /-- Function `volume_wave_manager.get_natural_interval` (line 351). -/
  wave : ℕ → ℕ
  /-- Result of `guardian_mode.get_frequency_multiplier()` (line 354). -/
  guardian_frequency_multiplier : ℚ

/-- What one cycle of the trading engine produced. -/
structure CycleResult where
  state : EngineState
  should_buy : Bool
  rotated : Bool
  swap : Option SwapConfig
  next_interval : ℕ
deriving Repr

/-- The rotation check and `rotate_wallet` (lines 305-313 and 392-410):
triggered when the counter has reached the configured threshold; the new
wallet is installed and the counter set to 0. -/
def rotateStep (threshold newWallet : ℕ) (s : EngineState) : EngineState :=
  if s.wallet_change_counter ≥ threshold then
    { s with current_wallet := newWallet, wallet_change_counter := 0 }
  else s

/-- The trade-tracking update at the end of a successful trade (lines
653-669 / 905-922): push the tag, bump both counters.  A failed trade
leaves the state unchanged (the error is logged and the loop continues). -/
def tradeStep (tag : TradeType) (succeeded : Bool) (s : EngineState) : EngineState :=
  if succeeded then
    { s with recent_trades := pushTradeHistory s.recent_trades tag
             trade_counter := s.trade_counter + 1
             wallet_change_counter := s.wallet_change_counter + 1 }
  else s

/-- One full cycle of `start_advanced_trading_engine` (lines 279-382),
written out in the source's order: decision, rotation check, trade
execution, interval computation. -/
def engineCycle (cfg : MarketMakerConfig) (s : EngineState) (inp : CycleInputs) :
    CycleResult :=
  -- lines 281-303: buy/sell decision
  let current_buy_share := applyGuardianBias inp.dynamic_buy_share inp.guardian_buy_bias
  let should_buy := inp.should_buy_next s.recent_trades current_buy_share
  -- lines 305-313: rotation check, before the trade is executed
  let should_rotate :=
    s.wallet_change_counter ≥ cfg.randomization_config.wallet_rotation_frequency
  let s1 :=
    if should_rotate then
      { s with current_wallet := inp.new_wallet, wallet_change_counter := 0 }
    else s
  -- lines 316-327: trade execution
  let traded :=
    if should_buy then
      -- execute_advanced_buy_debug, lines 593-614
      if inp.wsol_after_management ≤ 0 then
        (s1, none)  -- "No WSOL balance available for swap"
      else
        let rc := cfg.randomization_config
        let random_multiplier :=
          rc.min_amount_sol + (rc.max_amount_sol - rc.min_amount_sol) * inp.amount_draw
        let final_buy_amount := inp.wsol_after_management * random_multiplier
        let swap : SwapConfig :=
          { mint := cfg.target_token_mint
            swap_direction := .buyDir
            in_type := .qty
            amount_in := final_buy_amount
            slippage := cfg.slippage
            max_buy_amount := final_buy_amount }
        if inp.trade_succeeds then
          ({ s1 with recent_trades := pushTradeHistory s1.recent_trades .buy
                     trade_counter := s1.trade_counter + 1
                     wallet_change_counter := s1.wallet_change_counter + 1 },
           some swap)
        else (s1, some swap)
    else
      -- line 323 and execute_advanced_sell, lines 861-930
      let sell_percentage := 1/10 + inp.sell_draw * (4/10)
      let swap : SwapConfig :=
        { mint := cfg.target_token_mint
          swap_direction := .sellDir
          in_type := .pct
          amount_in := sell_percentage
          slippage := cfg.slippage
          max_buy_amount := 0 }
      if inp.trade_succeeds then
        ({ s1 with recent_trades := pushTradeHistory s1.recent_trades .sell
                   trade_counter := s1.trade_counter + 1
                   wallet_change_counter := s1.wallet_change_counter + 1 },
         some swap)
      else (s1, some swap)
  -- lines 330-370: next interval
  let base_interval :=
    if should_buy then cfg.randomization_config.base_buy_interval_ms
    else cfg.randomization_config.base_sell_interval_ms
  let next_interval :=
    final_interval (inp.raw_interval base_interval) inp.throttling_multiplier
      inp.wave inp.guardian_frequency_multiplier
  { state := traded.1
    should_buy := should_buy
    rotated := should_rotate
    swap := traded.2
    next_interval := next_interval }

/- ----------------------------------------------------------------
   Concrete sample values, used to instantiate the universally
   quantified theorems below at specific inputs.
   ---------------------------------------------------------------- -/

/-- A concrete randomization configuration (rotation every 5 trades). -/
def sampleRandomization : RandomizationConfig :=
  { min_amount_sol := 1/100
    max_amount_sol := 3/100
    buy_sell_share := 7/10
    wallet_rotation_frequency := 5
    base_buy_interval_ms := 60000
    base_sell_interval_ms := 90000 }

/-- A concrete configuration in the shape of `MarketMakerConfig::stealth_mode`
(`max_concurrent_trades = 3`). -/
def stealthLikeConfig : MarketMakerConfig :=
  { yellowstone_grpc_http := "http"
    yellowstone_grpc_token := "tok"
    target_token_mint := "MINT"
    slippage := 1000
    randomization_config := sampleRandomization
    enable_multi_wallet := true
    max_concurrent_trades := 3
    enable_telegram_notifications := true }

/-- The same configuration with only `max_concurrent_trades` changed. -/
def altConcurrencyConfig : MarketMakerConfig :=
  { stealthLikeConfig with max_concurrent_trades := 2 }

/-- A concrete engine state: three past trades, rotation counter at 5. -/
def sampleState : EngineState :=
  { recent_trades := [.buy, .buy, .sell]
    trade_counter := 3
    wallet_change_counter := 5
    current_wallet := 1 }

/-- Concrete cycle inputs: neutral multipliers, deterministic draws. -/
def sampleInputs : CycleInputs :=
  { dynamic_buy_share := 67/100
    guardian_buy_bias := 0
    should_buy_next := fun _ r => decide (r ≥ 1/2)
    new_wallet := 7
    amount_draw := 1/2
    sell_draw := 1/2
    trade_succeeds := true
    wsol_after_management := 1
    raw_interval := fun n => n
    throttling_multiplier := 1
    wave := fun n => n
    guardian_frequency_multiplier := 1 }

/-- A concrete activity record. -/
def sampleActivity : TokenActivity :=
  { timestamp := 0, is_buy := true, volume_sol := 1, user := "trader", price := 0 }

/- ----------------------------------------------------------------
   Helper lemmas about the bounded windows.
   ---------------------------------------------------------------- -/

/-- Appending below capacity evicts nothing. -/
lemma pushBounded_below {α : Type} (cap : ℕ) (w : List α) (x : α)
    (h : w.length < cap) : pushBounded cap w x = w ++ [x] := by
  have hc : ¬ ((w ++ [x]).length > cap) := by
    simp only [List.length_append, List.length_singleton]
    omega
  show (if (w ++ [x]).length > cap then (w ++ [x]).tail else (w ++ [x])) = w ++ [x]
  rw [if_neg hc]

/-- Appending at capacity evicts exactly the oldest element. -/
lemma pushBounded_at_cap {α : Type} (cap : ℕ) (w : List α) (x : α)
    (hcap : 0 < cap) (h : w.length = cap) :
    pushBounded cap w x = w.tail ++ [x] ∧ (pushBounded cap w x).length = cap := by
  obtain ⟨y, v, rfl⟩ : ∃ y v, w = y :: v := by
    cases w with
    | nil => simp at h; omega
    | cons y v => exact ⟨y, v, rfl⟩
  have hc : ((y :: v) ++ [x]).length > cap := by
    simp at h ⊢
    omega
  have he : pushBounded cap (y :: v) x = v ++ [x] := by
    show (if ((y :: v) ++ [x]).length > cap
          then ((y :: v) ++ [x]).tail else ((y :: v) ++ [x])) = v ++ [x]
    rw [if_pos hc]
    rfl
  refine ⟨by rw [he]; rfl, by rw [he]; simp at h ⊢; omega⟩

/-- The capacity bound is preserved by a push. -/
lemma pushBounded_length_le {α : Type} (cap : ℕ) (w : List α) (x : α)
    (h : w.length ≤ cap) : (pushBounded cap w x).length ≤ cap := by
  rcases Nat.lt_or_ge w.length cap with hlt | hge
  · rw [pushBounded_below cap w x hlt]
    simp only [List.length_append, List.length_singleton]
    omega
  · have heq : w.length = cap := le_antisymm h hge
    rcases Nat.eq_zero_or_pos cap with hz | hp
    · subst hz
      have hw : w = [] := List.eq_nil_of_length_eq_zero heq
      subst hw
      show (if ([ ] ++ [x] : List α).length > 0
            then (([ ] : List α) ++ [x]).tail else (([ ] : List α) ++ [x])).length ≤ 0
      norm_num
    · exact le_of_eq (pushBounded_at_cap cap w x hp heq).2

/- ----------------------------------------------------------------
   Helper lemmas about `floorToNat`.
   ---------------------------------------------------------------- -/

/-- Evaluation rule for `floorToNat` by sandwiching. -/
lemma floorToNat_eq (q : ℚ) (n : ℕ) (h1 : (n : ℚ) ≤ q) (h2 : q < n + 1) :
    floorToNat q = n := by
  have hf : ⌊q⌋ = (n : ℤ) := by
    rw [Int.floor_eq_iff]
    constructor
    · exact_mod_cast h1
    · push_cast
      exact h2
  unfold floorToNat
  rw [hf]
  exact Int.toNat_natCast n

/-- Floor of 1 × 1.5. -/
lemma floorEval_three_halves : floorToNat (((1:ℕ) : ℚ) * (3/2)) = 1 :=
  floorToNat_eq _ 1 (by push_cast; norm_num) (by push_cast; norm_num)

/-- Floor of 1 × 1.5 × 1.5. -/
lemma floorEval_nine_quarters : floorToNat (((1:ℕ) : ℚ) * (3/2) * (3/2)) = 2 :=
  floorToNat_eq _ 2 (by push_cast; norm_num) (by push_cast; norm_num)

/-- Floor of 1 × 0.5. -/
lemma floorEval_one_half : floorToNat (((1:ℕ) : ℚ) * (1/2)) = 0 :=
  floorToNat_eq _ 0 (by push_cast; norm_num) (by push_cast; norm_num)

/-- Floor of 0 × 3. -/
lemma floorEval_zero_times_three : floorToNat (((0:ℕ) : ℚ) * 3) = 0 :=
  floorToNat_eq _ 0 (by push_cast; norm_num) (by push_cast; norm_num)

/-- Floor of 1 × 3. -/
lemma floorEval_one_times_three : floorToNat (((1:ℕ) : ℚ) * 3) = 3 :=
  floorToNat_eq _ 3 (by push_cast; norm_num) (by push_cast; norm_num)

/-- Floor of 3 × 0.5. -/
lemma floorEval_three_halved : floorToNat (((3:ℕ) : ℚ) * (1/2)) = 1 :=
  floorToNat_eq _ 1 (by push_cast; norm_num) (by push_cast; norm_num)

/- ----------------------------------------------------------------
   Claim theorems.
   ---------------------------------------------------------------- -/

/-- C1: in the per-cycle buy/sell decision, a strictly positive guardian buy
bias makes the buy ratio passed to the streak-avoidance function equal to
`min(base dynamic ratio + bias, 0.95)`; for every base ratio and positive
bias the result never exceeds 0.95, and a zero-or-negative bias leaves the
base ratio unchanged.  The last conjunct shows the control loop passes
exactly this biased ratio to `should_buy_next`. -/
theorem guardian_bias_clamp (base bias : ℚ) :
    (0 < bias → applyGuardianBias base bias = min (base + bias) (95/100))
    ∧ (0 < bias → applyGuardianBias base bias ≤ 95/100)
    ∧ (bias ≤ 0 → applyGuardianBias base bias = base)
    ∧ ∀ (cfg : MarketMakerConfig) (s : EngineState) (inp : CycleInputs),
        (engineCycle cfg s inp).should_buy
          = inp.should_buy_next s.recent_trades
              (applyGuardianBias inp.dynamic_buy_share inp.guardian_buy_bias) := by
  refine ⟨fun h => ?_, fun h => ?_, fun h => ?_, fun cfg s inp => rfl⟩
  · simp [applyGuardianBias, h]
  · rw [applyGuardianBias, if_pos h]
    exact min_le_right _ _
  · simp [applyGuardianBias, not_lt.mpr h]

/-- Witness for C1: base 0.73 + bias 0.30 is clamped to 0.95, and a zero
bias leaves 0.73 unchanged. -/
theorem guardian_bias_clamp_witness :
    applyGuardianBias (73/100) (30/100) = min ((73:ℚ)/100 + 30/100) (95/100)
    ∧ applyGuardianBias (73/100) (30/100) ≤ 95/100
    ∧ applyGuardianBias (73/100) 0 = 73/100 := by
  obtain ⟨h1, h2, -, -⟩ := guardian_bias_clamp (73/100) (30/100)
  obtain ⟨-, -, h3, -⟩ := guardian_bias_clamp (73/100) 0
  exact ⟨h1 (by norm_num), h2 (by norm_num), h3 (by norm_num)⟩

/-- C3: balance-regime selection is a pure function of the native and
wrapped balances against the fixed thresholds 0.003 and 0.001, with the
stated membership conditions, and the three concrete instances of the claim
evaluate as stated. -/
theorem balance_regime_pure (native wrapped : ℚ) :
    (selectBalanceRegime native wrapped = .sufficient
       ↔ critical_sol_threshold < native ∧ minimal_wsol_balance_for_trading < wrapped)
    ∧ (selectBalanceRegime native wrapped = .feeStarved
       ↔ native ≤ critical_sol_threshold ∧ minimal_wsol_balance_for_trading < wrapped)
    ∧ (selectBalanceRegime native wrapped = .wrapNeeded
       ↔ wrapped ≤ minimal_wsol_balance_for_trading)
    ∧ selectBalanceRegime (2/1000) (2/100) = .feeStarved
    ∧ selectBalanceRegime (1/100) (2/100) = .sufficient
    ∧ selectBalanceRegime (1/100) (5/10000) = .wrapNeeded := by
  have main : (selectBalanceRegime native wrapped = .sufficient
       ↔ critical_sol_threshold < native ∧ minimal_wsol_balance_for_trading < wrapped)
    ∧ (selectBalanceRegime native wrapped = .feeStarved
       ↔ native ≤ critical_sol_threshold ∧ minimal_wsol_balance_for_trading < wrapped)
    ∧ (selectBalanceRegime native wrapped = .wrapNeeded
       ↔ wrapped ≤ minimal_wsol_balance_for_trading) := by
    by_cases h1 : critical_sol_threshold < native
    · by_cases h2 : minimal_wsol_balance_for_trading < wrapped
      · have hn := not_le.mpr h1
        have hw := not_le.mpr h2
        simp [selectBalanceRegime, h1, h2, hn, hw]
      · have h2' := not_lt.mp h2
        have hn := not_le.mpr h1
        simp [selectBalanceRegime, h1, h2, h2', hn]
    · have h1' := not_lt.mp h1
      by_cases h2 : minimal_wsol_balance_for_trading < wrapped
      · have hw := not_le.mpr h2
        simp [selectBalanceRegime, h1, h1', h2, hw]
      · have h2' := not_lt.mp h2
        simp [selectBalanceRegime, h1, h1', h2, h2']
  refine ⟨main.1, main.2.1, main.2.2, ?_, ?_, ?_⟩ <;>
    norm_num [selectBalanceRegime, critical_sol_threshold,
      minimal_wsol_balance_for_trading]

/-- C4: in the fee-starved regime the unwrap amount is
`(fee reserve − native) − 0.00204` floored at the dust amount 0.0001, and
a wrapped balance below it yields the distinct insufficient-WSOL error
before any on-chain operation, while a sufficient wrapped balance yields
the unwrap action for exactly that amount. -/
theorem fee_starved_unwrap (native wrapped : ℚ) :
    unwrapAmount native
      = max (minimal_balance_for_fee - native - rent_exemption_bonus) (1/10000)
    ∧ (selectBalanceRegime native wrapped = .feeStarved →
        (wrapped < unwrapAmount native →
          balanceStep native wrapped
            = .insufficientWsolError (unwrapAmount native) wrapped)
        ∧ (unwrapAmount native ≤ wrapped →
          balanceStep native wrapped = .unwrapAction (unwrapAmount native))) := by
  constructor
  · rfl
  · intro hreg
    have hb : balanceStep native wrapped
        = if wrapped ≥ unwrapAmount native then .unwrapAction (unwrapAmount native)
          else .insufficientWsolError (unwrapAmount native) wrapped := by
      unfold balanceStep
      rw [hreg]
    constructor
    · intro hlt
      rw [hb, if_neg (not_le.mpr hlt)]
    · intro hge
      rw [hb, if_pos hge]

/-- Witness for C4: native 0.002 with wrapped 0.02 unwraps 0.00096; native
0.001 with wrapped 0.0015 needs 0.00196 and fails with the
insufficient-WSOL error. -/
theorem fee_starved_unwrap_witness :
    balanceStep (1/500) (1/50) = .unwrapAction (3/3125)
    ∧ balanceStep (1/1000) (3/2000)
        = .insufficientWsolError (49/25000) (3/2000) := by
  have hu1 : unwrapAmount (1/500) = 3/3125 := by
    simp only [unwrapAmount, minimal_balance_for_fee, rent_exemption_bonus]
    rw [max_eq_left (by norm_num)]
    norm_num
  have hu2 : unwrapAmount (1/1000) = 49/25000 := by
    simp only [unwrapAmount, minimal_balance_for_fee, rent_exemption_bonus]
    rw [max_eq_left (by norm_num)]
    norm_num
  have hreg1 : selectBalanceRegime (1/500) (1/50) = .feeStarved := by
    norm_num [selectBalanceRegime, critical_sol_threshold,
      minimal_wsol_balance_for_trading]
  have hreg2 : selectBalanceRegime (1/1000) (3/2000) = .feeStarved := by
    norm_num [selectBalanceRegime, critical_sol_threshold,
      minimal_wsol_balance_for_trading]
  constructor
  · have h := ((fee_starved_unwrap (1/500) (1/50)).2 hreg1).2
    rw [hu1] at h
    exact h (by norm_num)
  · have h := ((fee_starved_unwrap (1/1000) (3/2000)).2 hreg2).1
    rw [hu2] at h
    exact h (by norm_num)

/-- C5: the trade-history window never exceeds 20 entries and the activity
window never exceeds 100; a push at capacity evicts exactly the oldest
entry and keeps the length at capacity, a push below capacity evicts
nothing, and the feed's `add_token_activity` updates its window by exactly
this bounded push. -/
theorem window_capacity (w : List TradeType) (t : TradeType)
    (acts : List TokenActivity) (fs : FeedState) (a : TokenActivity) :
    (w.length ≤ 20 → (pushTradeHistory w t).length ≤ 20)
    ∧ (w.length = 20 →
        pushTradeHistory w t = w.tail ++ [t] ∧ (pushTradeHistory w t).length = 20)
    ∧ (w.length < 20 → pushTradeHistory w t = w ++ [t])
    ∧ (acts.length ≤ 100 → (pushBounded 100 acts a).length ≤ 100)
    ∧ (acts.length = 100 →
        pushBounded 100 acts a = acts.tail ++ [a]
        ∧ (pushBounded 100 acts a).length = 100)
    ∧ (acts.length < 100 → pushBounded 100 acts a = acts ++ [a])
    ∧ (add_token_activity fs a).activities = pushBounded 100 fs.activities a := by
  refine ⟨fun h => pushBounded_length_le 20 w t h,
          fun h => pushBounded_at_cap 20 w t (by norm_num) h,
          fun h => pushBounded_below 20 w t h,
          fun h => pushBounded_length_le 100 acts a h,
          fun h => pushBounded_at_cap 100 acts a (by norm_num) h,
          fun h => pushBounded_below 100 acts a h,
          ?_⟩
  unfold add_token_activity
  split <;> rfl

/-- C2 counterexample: the interval computation does NOT truncate only once
at the end, and its multiplier application is NOT order-independent.  With a
jittered base of 1 ms, throttle 1.5, identity wave transform and guardian
1.5, the code yields 1 ms while the single-truncation computation yields
2 ms; and with throttle 0.5 and guardian 3 the code yields 0 ms, while
swapping the two multipliers yields 1 ms. -/
theorem interval_truncation_counterexample :
    final_interval 1 (3/2) (fun n => n) (3/2) = 1
    ∧ truncateOnceInterval 1 (3/2) (fun q => q) (3/2) = 2
    ∧ final_interval 1 (1/2) (fun n => n) 3 = 0
    ∧ final_interval 1 3 (fun n => n) (1/2) = 1 := by
  refine ⟨?_, ?_, ?_, ?_⟩
  · show floorToNat ((floorToNat (((1:ℕ) : ℚ) * (3/2)) : ℚ) * (3/2)) = 1
    rw [floorEval_three_halves]
    exact floorEval_three_halves
  · show floorToNat (((1:ℕ) : ℚ) * (3/2) * (3/2)) = 2
    exact floorEval_nine_quarters
  · show floorToNat ((floorToNat (((1:ℕ) : ℚ) * (1/2)) : ℚ) * 3) = 0
    rw [floorEval_one_half]
    exact floorEval_zero_times_three
  · show floorToNat ((floorToNat (((1:ℕ) : ℚ) * 3) : ℚ) * (1/2)) = 1
    rw [floorEval_one_times_three]
    exact floorEval_three_halved

/-- C2 as amended: the next-interval computation truncates to integer
milliseconds twice — once after the throttle multiplier (the wave-shaper
transform receives the already-truncated integer) and once after the
guardian multiplier — so the final value is
`⌊(wave ⌊raw · throttle⌋) · guardian⌋`; by the intermediate truncation the
computation differs from a single truncation at the end and the throttle
and guardian multipliers do not commute in general. -/
theorem interval_two_truncations (raw : ℕ) (t g : ℚ) (wave : ℕ → ℕ) :
    final_interval raw t wave g
      = floorToNat ((wave (throttled_interval raw t) : ℚ) * g)
    ∧ (∃ raw0 : ℕ, ∃ t0 g0 : ℚ,
        final_interval raw0 t0 (fun n => n) g0
          ≠ truncateOnceInterval raw0 t0 (fun q => q) g0)
    ∧ (∃ raw1 : ℕ, ∃ t1 g1 : ℚ,
        final_interval raw1 t1 (fun n => n) g1
          ≠ final_interval raw1 g1 (fun n => n) t1) := by
  refine ⟨rfl, ⟨1, 3/2, 3/2, ?_⟩, ⟨1, 1/2, 3, ?_⟩⟩
  · have hcode : final_interval 1 (3/2) (fun n => n) (3/2) = 1 := by
      show floorToNat ((floorToNat (((1:ℕ) : ℚ) * (3/2)) : ℚ) * (3/2)) = 1
      rw [floorEval_three_halves]
      exact floorEval_three_halves
    have hspec : truncateOnceInterval 1 (3/2) (fun q => q) (3/2) = 2 :=
      floorEval_nine_quarters
    omega
  · have hcode : final_interval 1 (1/2) (fun n => n) 3 = 0 := by
      show floorToNat ((floorToNat (((1:ℕ) : ℚ) * (1/2)) : ℚ) * 3) = 0
      rw [floorEval_one_half]
      exact floorEval_zero_times_three
    have hswap : final_interval 1 3 (fun n => n) (1/2) = 1 := by
      show floorToNat ((floorToNat (((1:ℕ) : ℚ) * 3) : ℚ) * (1/2)) = 1
      rw [floorEval_one_times_three]
      exact floorEval_three_halved
    omega

/-- Witness for C5: a window of exactly 20 (resp. 100) entries drops its
head on push and stays at capacity. -/
theorem window_capacity_witness :
    pushTradeHistory (List.replicate 20 TradeType.buy) .sell
      = (List.replicate 20 TradeType.buy).tail ++ [.sell]
    ∧ (pushTradeHistory (List.replicate 20 TradeType.buy) .sell).length = 20
    ∧ pushBounded 100 (List.replicate 100 sampleActivity) sampleActivity
      = (List.replicate 100 sampleActivity).tail ++ [sampleActivity]
    ∧ (pushBounded 100 (List.replicate 100 sampleActivity) sampleActivity).length
      = 100 := by
  obtain ⟨-, h20, -, -, h100, -, -⟩ :=
    window_capacity (List.replicate 20 TradeType.buy) .sell
      (List.replicate 100 sampleActivity) ⟨[], [], []⟩ sampleActivity
  obtain ⟨e20, l20⟩ := h20 (by simp)
  obtain ⟨e100, l100⟩ := h100 (by simp)
  exact ⟨e20, l20, e100, l100⟩

/-- C6: the rotation check runs at the top of the cycle, before the trade:
it fires exactly when the trades-since-rotation counter has reached the
configured threshold, the counter is exactly 0 immediately after a
rotation, and the cycle's whole state update factors as the trade update
applied AFTER the rotation update (so a rotation never happens while the
cycle's trade is in flight). -/
theorem rotation_at_cycle_top (cfg : MarketMakerConfig) (s : EngineState)
    (inp : CycleInputs) :
    (cfg.randomization_config.wallet_rotation_frequency ≤ s.wallet_change_counter →
      (rotateStep cfg.randomization_config.wallet_rotation_frequency
          inp.new_wallet s).wallet_change_counter = 0
      ∧ (rotateStep cfg.randomization_config.wallet_rotation_frequency
          inp.new_wallet s).current_wallet = inp.new_wallet)
    ∧ (s.wallet_change_counter < cfg.randomization_config.wallet_rotation_frequency →
      rotateStep cfg.randomization_config.wallet_rotation_frequency inp.new_wallet s = s)
    ∧ (engineCycle cfg s inp).rotated
      = decide (s.wallet_change_counter
          ≥ cfg.randomization_config.wallet_rotation_frequency)
    ∧ (engineCycle cfg s inp).state
      = tradeStep (if (engineCycle cfg s inp).should_buy then .buy else .sell)
          (((!(engineCycle cfg s inp).should_buy)
              || decide ((0:ℚ) < inp.wsol_after_management)) && inp.trade_succeeds)
          (rotateStep cfg.randomization_config.wallet_rotation_frequency
            inp.new_wallet s) := by
  refine ⟨fun h => ?_, fun h => ?_, rfl, ?_⟩
  · unfold rotateStep
    rw [if_pos h]
    exact ⟨rfl, rfl⟩
  · unfold rotateStep
    rw [if_neg (not_le.mpr h)]
  · cases hb : inp.should_buy_next s.recent_trades
        (applyGuardianBias inp.dynamic_buy_share inp.guardian_buy_bias) with
    | false =>
        cases hts : inp.trade_succeeds with
        | false => simp [engineCycle, hb, hts, tradeStep, rotateStep]
        | true => simp [engineCycle, hb, hts, tradeStep, rotateStep]
    | true =>
        by_cases hw : inp.wsol_after_management ≤ 0
        · have hd : decide ((0:ℚ) < inp.wsol_after_management) = false :=
            decide_eq_false (not_lt.mpr hw)
          simp [engineCycle, hb, hw, hd, tradeStep, rotateStep]
        · have hlt : (0:ℚ) < inp.wsol_after_management := not_le.mp hw
          have hd : decide ((0:ℚ) < inp.wsol_after_management) = true :=
            decide_eq_true hlt
          cases hts : inp.trade_succeeds with
          | false => simp [engineCycle, hb, hw, hd, hts, tradeStep, rotateStep]
          | true => simp [engineCycle, hb, hw, hd, hts, tradeStep, rotateStep]

/-- Witness for C6: with a threshold of 5, a counter at 5 triggers a
rotation that installs wallet 7 and resets the counter to exactly 0, while
a counter at 4 leaves the state untouched. -/
theorem rotation_at_cycle_top_witness :
    (rotateStep stealthLikeConfig.randomization_config.wallet_rotation_frequency
        sampleInputs.new_wallet sampleState).wallet_change_counter = 0
    ∧ (rotateStep stealthLikeConfig.randomization_config.wallet_rotation_frequency
        sampleInputs.new_wallet sampleState).current_wallet = 7
    ∧ rotateStep stealthLikeConfig.randomization_config.wallet_rotation_frequency
        sampleInputs.new_wallet { sampleState with wallet_change_counter := 4 }
      = { sampleState with wallet_change_counter := 4 } := by
  obtain ⟨h1, -, -, -⟩ :=
    rotation_at_cycle_top stealthLikeConfig sampleState sampleInputs
  obtain ⟨-, h2, -, -⟩ :=
    rotation_at_cycle_top stealthLikeConfig
      { sampleState with wallet_change_counter := 4 } sampleInputs
  obtain ⟨ha, hb⟩ := h1 (by decide)
  exact ⟨ha, hb, h2 (by decide)⟩

/-- C7 counterexample: the claim says the subscribe call is retried up to 3
times, each retry preceded by a 5-second backoff, before the feed fails —
that would be 4 attempts and 3 backoffs.  With an always-failing subscribe
the loop actually performs only 3 attempts and 2 backoff sleeps before
failing: the number of backoffs is 2, not `MAX_RETRIES = 3`. -/
theorem subscribe_retry_counterexample :
    start_grpc_subscribe (fun _ => false) = .failure 3 [5000, 5000]
    ∧ ([5000, 5000] : List ℕ).length ≠ MAX_RETRIES := by
  constructor
  · simp [start_grpc_subscribe, MAX_RETRIES, subscribeAttemptLoop]
  · simp [MAX_RETRIES]

/-- C7 as amended: the subscribe call is attempted up to `MAX_RETRIES = 3`
times in total (the initial call plus up to 2 retries), each retry preceded
by one fixed 5000 ms backoff; after the third failed attempt the feed fails
with an error (no infinite retry), and the loop exits immediately at the
first successful attempt. -/
theorem subscribe_retry_bounded (ok : ℕ → Bool) :
    ((∀ i, i < MAX_RETRIES → ok i = false) →
      start_grpc_subscribe ok = .failure MAX_RETRIES [5000, 5000])
    ∧ (∀ k, k < MAX_RETRIES → ok k = true → (∀ i, i < k → ok i = false) →
      start_grpc_subscribe ok = .success (k + 1) (List.replicate k 5000)) := by
  constructor
  · intro h
    have h0 := h 0 (by norm_num [MAX_RETRIES])
    have h1 := h 1 (by norm_num [MAX_RETRIES])
    have h2 := h 2 (by norm_num [MAX_RETRIES])
    simp [start_grpc_subscribe, MAX_RETRIES, subscribeAttemptLoop, h0, h1, h2]
  · intro k hk hok hprev
    have hk3 : k < 3 := by simpa [MAX_RETRIES] using hk
    interval_cases k
    · simp [start_grpc_subscribe, MAX_RETRIES, subscribeAttemptLoop, hok]
    · have h0 := hprev 0 (by norm_num)
      simp [start_grpc_subscribe, MAX_RETRIES, subscribeAttemptLoop, h0, hok]
    · have h0 := hprev 0 (by norm_num)
      have h1 := hprev 1 (by norm_num)
      simp [start_grpc_subscribe, MAX_RETRIES, subscribeAttemptLoop, h0, h1, hok]

/-- Witness for C7 (amended): a subscribe that succeeds on its second
attempt exits after exactly one 5-second backoff, and an always-failing
subscribe fails after 3 attempts and two backoffs. -/
theorem subscribe_retry_bounded_witness :
    start_grpc_subscribe (fun i => decide (i = 1)) = .success 2 [5000]
    ∧ start_grpc_subscribe (fun _ => false) = .failure MAX_RETRIES [5000, 5000] := by
  constructor
  · have h := (subscribe_retry_bounded (fun i => decide (i = 1))).2 1
      (by norm_num [MAX_RETRIES]) (by simp)
      (by intro i hi; interval_cases i; simp)
    simpa using h
  · exact (subscribe_retry_bounded (fun _ => false)).1 (fun i _ => rfl)

/-- C8: an activity report over a window with no entry newer than 60
minutes is the all-zero report with `report_period_minutes = 60`, and every
logged ratio whose denominator would be zero defaults to 0 (no division by
zero is performed). -/
theorem empty_window_report (activities : List TokenActivity) (now : ℕ)
    (h : ∀ a ∈ activities, 3600 < now - a.timestamp) :
    generate_activity_report activities now
      = { TokenActivityReport.zero with report_period_minutes := 60 }
    ∧ buyTradePct (generate_activity_report activities now) = 0
    ∧ sellTradePct (generate_activity_report activities now) = 0
    ∧ buyVolumePct (generate_activity_report activities now) = 0
    ∧ sellVolumePct (generate_activity_report activities now) = 0
    ∧ priceRangePct (generate_activity_report activities now) = 0
    ∧ avgTradesPerTrader (generate_activity_report activities now) = 0 := by
  have hfil : activities.filter (fun a => now - a.timestamp ≤ 3600) = [] := by
    rw [List.filter_eq_nil_iff]
    intro a ha
    simpa using not_le.mpr (h a ha)
  have hrep : generate_activity_report activities now
      = { TokenActivityReport.zero with report_period_minutes := 60 } := by
    unfold generate_activity_report
    rw [hfil]
    rfl
  refine ⟨hrep, ?_, ?_, ?_, ?_, ?_, ?_⟩ <;>
    simp [hrep, buyTradePct, sellTradePct, buyVolumePct, sellVolumePct,
      priceRangePct, avgTradesPerTrader, TokenActivityReport.zero]

/-- Witness for C8: one activity aged beyond the 60-minute cut-off produces
the zero report with period 60 and all ratios 0. -/
theorem empty_window_report_witness :
    generate_activity_report [sampleActivity] 4000
      = { TokenActivityReport.zero with report_period_minutes := 60 }
    ∧ buyTradePct (generate_activity_report [sampleActivity] 4000) = 0
    ∧ sellTradePct (generate_activity_report [sampleActivity] 4000) = 0
    ∧ buyVolumePct (generate_activity_report [sampleActivity] 4000) = 0
    ∧ sellVolumePct (generate_activity_report [sampleActivity] 4000) = 0
    ∧ priceRangePct (generate_activity_report [sampleActivity] 4000) = 0
    ∧ avgTradesPerTrader (generate_activity_report [sampleActivity] 4000) = 0 := by
  refine empty_window_report [sampleActivity] 4000 ?_
  intro a ha
  rw [List.mem_singleton] at ha
  subst ha
  norm_num [sampleActivity]

/-- C9: `max_concurrent_trades` is purely informational — two
configurations that differ only in that field produce, for the same state
and the same external inputs and random draws, exactly the same cycle
result (decision, rotation, swap request, state update and next interval). -/
theorem max_concurrent_informational
    (c1 c2 : MarketMakerConfig) (s : EngineState) (inp : CycleInputs)
    (hhttp : c1.yellowstone_grpc_http = c2.yellowstone_grpc_http)
    (htok : c1.yellowstone_grpc_token = c2.yellowstone_grpc_token)
    (hmint : c1.target_token_mint = c2.target_token_mint)
    (hslip : c1.slippage = c2.slippage)
    (hrand : c1.randomization_config = c2.randomization_config)
    (hmw : c1.enable_multi_wallet = c2.enable_multi_wallet)
    (htg : c1.enable_telegram_notifications = c2.enable_telegram_notifications) :
    engineCycle c1 s inp = engineCycle c2 s inp := by
  unfold engineCycle
  rw [hmint, hslip, hrand]

/-- Witness for C9: the stealth-shaped configuration and its copy with
`max_concurrent_trades` changed from 3 to 2 yield identical cycle results. -/
theorem max_concurrent_informational_witness :
    engineCycle stealthLikeConfig sampleState sampleInputs
      = engineCycle altConcurrencyConfig sampleState sampleInputs :=
  max_concurrent_informational stealthLikeConfig altConcurrencyConfig
    sampleState sampleInputs rfl rfl rfl rfl rfl rfl rfl

/-- C10: every activity record created by the GRPC message processor has
price 0, so processing a feed message never forwards a price point to the
price monitor or the guardian mode — the feed path modifies only the
activity window (and a non-matching message changes nothing). -/
theorem grpc_price_frame (fs : FeedState) (t : TradeInfoFromToken) (now : ℕ) :
    (mkActivityFromGrpc now t).price = 0
    ∧ (process_grpc_message fs (some t) now).price_monitor_points
        = fs.price_monitor_points
    ∧ (process_grpc_message fs (some t) now).guardian_points = fs.guardian_points
    ∧ (process_grpc_message fs (some t) now).activities
        = pushBounded 100 fs.activities (mkActivityFromGrpc now t)
    ∧ process_grpc_message fs none now = fs := by
  refine ⟨rfl, ?_, ?_, ?_, rfl⟩ <;>
    simp [process_grpc_message, add_token_activity, mkActivityFromGrpc]

end MarketMaker
